import Mathlib

/-!
Verification of the AudioDiary journaling backend (Humphery7/Chronicle).

This file shallowly embeds the parts of the repository that the verified
claims are about:

* `src/config/settings.py` — the `Settings` record (only the fields the
  claims touch); pydantic field constraints appear as hypotheses where a
  claim depends on them.
* `src/utils/asr_utils.py` — `validate_audio_file`, `transcribe_audio`,
  `process_audio_upload`.
* `src/utils/tts_utils.py` — `validate_text_for_tts`,
  `generate_audio_filename` (with a full executable MD5),
  `text_to_speech`, `save_audio_file`, `process_tts_request`,
  `cleanup_old_audio_files`.
* `src/utils/chat_utils.py` — `generate_chat_response`.
* `src/api_v1/endpoints/asr_endpoint.py`, `tts_endpoint.py`,
  `health_chat.py` — the error-mapping layer of the HTTP handlers.
* `src/utils/dependencies.py` — the per-user conversation store
  (`get_conversation_memory`), whose histories are langchain
  `ChatMessageHistory` objects, i.e. unbounded message lists.

Python strings are Lean `String`s (`str.strip()` is the structural
`pyStrip` below, over Python's whitespace set), bytes are `List Nat` with each element a
byte value, machine words in MD5 are `Nat` reduced mod `2 ^ 32`, and the
remote HuggingFace clients are parameters returning `Except` values so a
stub adapter can observe whether and with which payload they were called.
-/

/-- The configuration fields used by the embedded code
(`src/config/settings.py`).  `allowed_audio_formats` is a Python `set`
of strings; it is embedded as the list of its elements in source order. -/
structure Settings where
  conversation_memory_size : Nat := 5
  max_audio_file_size_mb : Nat := 25
  allowed_audio_formats : List String := ["audio/wav", "audio/mpeg", "audio/mp4", "audio/x-m4a"]
deriving DecidableEq, Repr

/-- `Settings.max_audio_file_size_bytes`: MB to bytes conversion property. -/
def Settings.max_audio_file_size_bytes (s : Settings) : Nat :=
  s.max_audio_file_size_mb * 1024 * 1024

/-- The `Settings()` instance built with every field at its default. -/
def defaultSettings : Settings := {}

/-- An uploaded file as the validator sees it: the declared content type,
the underlying byte stream, and the stream position (`file.file.seek` /
`tell`).  `await file.read()` after a reset reads `content`. -/
structure UploadFile where
  contentType : String
  content : List Nat
  pos : Nat
deriving DecidableEq, Repr

/-- The distinct `raise ASRError(...)` sites of `src/utils/asr_utils.py`,
one constructor per site, carrying the dynamic data interpolated into the
message. -/
inductive ASRError where
  | invalidFormat (contentType : String)
  | tooLarge (sizeBytes : Nat)
  | emptyFile
  | transcriptionFailed (cause : String)
  | emptyTranscription
deriving DecidableEq, Repr

/-- Renders the megabyte count of `f-strings` like `f"{actual_mb:.1f}"`:
one decimal digit, rounding half up.  (The binary-float round-half-even
tie behaviour of CPython is not modelled; no claim depends on this
string.) -/
def mbOneDecimal (sizeBytes : Nat) : String :=
  let tenths := (sizeBytes * 10 * 2 + 1048576) / (2 * 1048576)
  toString (tenths / 10) ++ "." ++ toString (tenths % 10)

/-- The message each `raise ASRError(f"...")` site formats (`str(e)` as the
endpoint exposes it). -/
def ASRError.message (s : Settings) : ASRError → String
  | .invalidFormat ct =>
      "Invalid audio format: " ++ ct ++ ". Allowed formats: " ++
        String.intercalate ", " s.allowed_audio_formats
  | .tooLarge sizeBytes =>
      "File too large: " ++ mbOneDecimal sizeBytes ++ "MB. Maximum allowed: " ++
        toString s.max_audio_file_size_mb ++ "MB"
  | .emptyFile => "Empty audio file"
  | .transcriptionFailed cause => "Transcription failed: " ++ cause
  | .emptyTranscription => "Transcription returned empty text"

/-- `validate_audio_file` (`src/utils/asr_utils.py`): content-type check,
then size check via seek-to-end / tell / seek-to-start, then the
strictly-greater ceiling comparison, then the zero check.  On success the
file is returned with its stream position reset to the beginning, as the
final `file.file.seek(0)` leaves it. -/
def validate_audio_file (s : Settings) (file : UploadFile) : Except ASRError UploadFile :=
  if file.contentType ∉ s.allowed_audio_formats then
    .error (.invalidFormat file.contentType)
  else
    let file_size := file.content.length
    if file_size > s.max_audio_file_size_bytes then
      .error (.tooLarge file_size)
    else if file_size = 0 then
      .error .emptyFile
    else
      .ok { file with pos := 0 }

/-- The shapes the remote Whisper call may return (`transcribe_audio`
handles a `dict` with an optional `"text"` field, a bare `str`, and a
fallback that stringifies anything else). -/
inductive RemoteAsrResponse where
  | obj (text : Option String)
  | str (s : String)
  | other (stringified : String)
deriving DecidableEq, Repr

/-- The `text` extracted from each response shape (`result.get("text", "")`
for a dict, the string itself, `str(result)` otherwise). -/
def normalizeAsr : RemoteAsrResponse → String
  | .obj t => t.getD ""
  | .str s => s
  | .other stringified => stringified

/-- The whitespace set of CPython's `str.strip()` with no arguments
(`Py_UNICODE_ISSPACE`): the ASCII range TAB through CR and the space, the
information separators U+001C through U+001F, next line U+0085, no-break
space U+00A0, Ogham space mark U+1680, the Unicode spaces U+2000 through
U+200A, the line and paragraph separators U+2028 and U+2029, narrow
no-break space U+202F, medium mathematical space U+205F, and ideographic
space U+3000. -/
def pyIsSpace (c : Char) : Bool :=
  (decide (0x09 ≤ c.toNat) && decide (c.toNat ≤ 0x0d)) || c.toNat == 0x20 ||
    (decide (0x1c ≤ c.toNat) && decide (c.toNat ≤ 0x1f)) ||
    c.toNat == 0x85 || c.toNat == 0xa0 || c.toNat == 0x1680 ||
    (decide (0x2000 ≤ c.toNat) && decide (c.toNat ≤ 0x200a)) ||
    c.toNat == 0x2028 || c.toNat == 0x2029 || c.toNat == 0x202f ||
    c.toNat == 0x205f || c.toNat == 0x3000

/-- Removal of leading whitespace from a character list. -/
def dropSpaces : List Char → List Char
  | [] => []
  | c :: cs => if pyIsSpace c then dropSpaces cs else c :: cs

/-- Python's `text.strip()`: leading and trailing whitespace removed. -/
def pyStrip (text : String) : String :=
  String.mk (dropSpaces (dropSpaces text.data).reverse).reverse

/-- The dictionary `transcribe_audio` returns. -/
structure TranscriptionResult where
  text : String
  language : String
deriving DecidableEq, Repr

/-- `transcribe_audio` (`src/utils/asr_utils.py`) applied to the outcome of
the remote call: a remote exception is wrapped into
`ASRError.transcriptionFailed` carrying `str(e)`; otherwise the response is
normalized, rejected if empty or all-whitespace, and returned trimmed with
the hardcoded `"en"` language. -/
def transcribe_audio (remoteResult : Except String RemoteAsrResponse) :
    Except ASRError TranscriptionResult :=
  match remoteResult with
  | .error cause => .error (.transcriptionFailed cause)
  | .ok result =>
    let text := normalizeAsr result
    if text = "" ∨ pyStrip text = "" then
      .error .emptyTranscription
    else
      .ok { text := pyStrip text, language := "en" }

/-- `process_audio_upload` (`src/utils/asr_utils.py`): validate, read the
file, transcribe.  The remote client is a parameter from audio bytes to the
remote outcome; the second component of the result records the payload the
remote client was applied to (`none` when it was never called), the
call-count instrumentation of a stub adapter. -/
def process_audio_upload (s : Settings)
    (remote : List Nat → Except String RemoteAsrResponse) (file : UploadFile) :
    Except ASRError TranscriptionResult × Option (List Nat) :=
  match validate_audio_file s file with
  | .error e => (.error e, none)
  | .ok validated =>
    let audio_data := validated.content
    (transcribe_audio (remote audio_data), some audio_data)

/-- The body of an error response as the handlers build it
(`HTTPException(status_code=..., detail=...)`). -/
structure ErrorResp where
  status : Nat
  detail : String
deriving DecidableEq, Repr

/-- The error mapping of `transcribe_audio_endpoint`
(`src/api_v1/endpoints/asr_endpoint.py`): every `ASRError` is caught and
re-raised as HTTP 400 with `detail=str(e)`.  The `except Exception` branch
(HTTP 500 with the generic "Audio transcription failed. Please try again.")
is unreachable for the failure modes modelled here, because
`process_audio_upload` re-raises every failure — remote ones included — as
`ASRError`. -/
def transcribe_audio_endpoint (s : Settings)
    (remote : List Nat → Except String RemoteAsrResponse) (file : UploadFile) :
    Except ErrorResp TranscriptionResult :=
  match (process_audio_upload s remote file).1 with
  | .ok r => .ok r
  | .error e => .error { status := 400, detail := e.message s }

/-- The distinct `raise TTSError(...)` sites of `src/utils/tts_utils.py`
reachable in the modelled flow, one constructor per site. -/
inductive TTSError where
  | emptyText
  | tooLong (chars : Nat)
  | emptyAudio
  | synthesisFailed (cause : String)
deriving DecidableEq, Repr

/-- The message each `raise TTSError(f"...")` site formats. -/
def TTSError.message : TTSError → String
  | .emptyText => "Text cannot be empty"
  | .tooLong chars => "Text too long: " ++ toString chars ++ " chars. Maximum: 2000 chars"
  | .emptyAudio => "TTS returned empty audio"
  | .synthesisFailed cause => "Text-to-speech conversion failed: " ++ cause

/-- `validate_text_for_tts` (`src/utils/tts_utils.py`): `not text or not
text.strip()` rejects empty or all-whitespace input, then `len(text) >
2000` (a literal in the source, not a configuration field) rejects long
input; nothing is returned on success. -/
def validate_text_for_tts (text : String) : Except TTSError Unit :=
  if text = "" ∨ pyStrip text = "" then
    .error .emptyText
  else if text.length > 2000 then
    .error (.tooLong text.length)
  else
    .ok ()

/-! MD5 (`hashlib.md5`), executable, with 32-bit words as `Nat` mod
`2 ^ 32`.  Only `digest` shape facts are needed by the proofs, but the
function is the real algorithm so that it can be evaluated on concrete
inputs. -/

/-- Truncation to a 32-bit word. -/
def w32 (n : Nat) : Nat := n % 4294967296

/-- Left rotation of a 32-bit word. -/
def rotl32 (x s : Nat) : Nat := w32 ((x <<< s) ||| (x >>> (32 - s)))

/-- The 64 MD5 sine-derived constants. -/
def md5K : List Nat :=
  [0xd76aa478, 0xe8c7b756, 0x242070db, 0xc1bdceee,
   0xf57c0faf, 0x4787c62a, 0xa8304613, 0xfd469501,
   0x698098d8, 0x8b44f7af, 0xffff5bb1, 0x895cd7be,
   0x6b901122, 0xfd987193, 0xa679438e, 0x49b40821,
   0xf61e2562, 0xc040b340, 0x265e5a51, 0xe9b6c7aa,
   0xd62f105d, 0x02441453, 0xd8a1e681, 0xe7d3fbc8,
   0x21e1cde6, 0xc33707d6, 0xf4d50d87, 0x455a14ed,
   0xa9e3e905, 0xfcefa3f8, 0x676f02d9, 0x8d2a4c8a,
   0xfffa3942, 0x8771f681, 0x6d9d6122, 0xfde5380c,
   0xa4beea44, 0x4bdecfa9, 0xf6bb4b60, 0xbebfbc70,
   0x289b7ec6, 0xeaa127fa, 0xd4ef3085, 0x04881d05,
   0xd9d4d039, 0xe6db99e5, 0x1fa27cf8, 0xc4ac5665,
   0xf4292244, 0x432aff97, 0xab9423a7, 0xfc93a039,
   0x655b59c3, 0x8f0ccc92, 0xffeff47d, 0x85845dd1,
   0x6fa87e4f, 0xfe2ce6e0, 0xa3014314, 0x4e0811a1,
   0xf7537e82, 0xbd3af235, 0x2ad7d2bb, 0xeb86d391]

/-- The 64 MD5 per-round shift amounts. -/
def md5S : List Nat :=
  [7, 12, 17, 22, 7, 12, 17, 22, 7, 12, 17, 22, 7, 12, 17, 22,
   5, 9, 14, 20, 5, 9, 14, 20, 5, 9, 14, 20, 5, 9, 14, 20,
   4, 11, 16, 23, 4, 11, 16, 23, 4, 11, 16, 23, 4, 11, 16, 23,
   6, 10, 15, 21, 6, 10, 15, 21, 6, 10, 15, 21, 6, 10, 15, 21]

/-- The four 32-bit words of the MD5 state. -/
structure MD5State where
  a : Nat
  b : Nat
  c : Nat
  d : Nat
deriving DecidableEq, Repr

/-- One of the 64 MD5 operations; `m` maps a word index to the chunk's
little-endian 32-bit word. -/
def md5Step (m : Nat → Nat) (st : MD5State) (i : Nat) : MD5State :=
  let fg : Nat × Nat :=
    if i < 16 then ((st.b &&& st.c) ||| ((st.b ^^^ 0xffffffff) &&& st.d), i)
    else if i < 32 then ((st.d &&& st.b) ||| ((st.d ^^^ 0xffffffff) &&& st.c), (5 * i + 1) % 16)
    else if i < 48 then (st.b ^^^ st.c ^^^ st.d, (3 * i + 5) % 16)
    else (st.c ^^^ (st.b ||| (st.d ^^^ 0xffffffff)), (7 * i) % 16)
  let f := w32 (fg.1 + st.a + md5K.getD i 0 + m fg.2)
  { a := st.d, b := w32 (st.b + rotl32 f (md5S.getD i 0)), c := st.b, d := st.c }

/-- Processing of one 64-byte chunk. -/
def md5Chunk (st : MD5State) (chunk : List Nat) : MD5State :=
  let m : Nat → Nat := fun g =>
    chunk.getD (4 * g) 0 + 256 * chunk.getD (4 * g + 1) 0 +
      65536 * chunk.getD (4 * g + 2) 0 + 16777216 * chunk.getD (4 * g + 3) 0
  let r := (List.range 64).foldl (md5Step m) st
  { a := w32 (st.a + r.a), b := w32 (st.b + r.b), c := w32 (st.c + r.c), d := w32 (st.d + r.d) }

/-- The `k` low-order bytes of `n`, little-endian. -/
def leBytes : Nat → Nat → List Nat
  | 0, _ => []
  | k + 1, n => n % 256 :: leBytes k (n / 256)

/-- MD5 padding: a `0x80` byte, zeros to 56 mod 64, then the bit length as
a 64-bit little-endian quantity. -/
def md5Pad (msg : List Nat) : List Nat :=
  msg ++ 128 :: List.replicate ((119 - msg.length % 64) % 64) 0 ++ leBytes 8 (8 * msg.length)

/-- Splits a list into runs of 64, with fuel for structural recursion. -/
def chunksOf64 : Nat → List Nat → List (List Nat)
  | _, [] => []
  | 0, _ :: _ => []
  | fuel + 1, l => l.take 64 :: chunksOf64 fuel (l.drop 64)

/-- The 16-byte MD5 digest of a byte string. -/
def md5Digest (msg : List Nat) : List Nat :=
  let padded := md5Pad msg
  let st := (chunksOf64 (padded.length / 64) padded).foldl md5Chunk
    { a := 0x67452301, b := 0xefcdab89, c := 0x98badcfe, d := 0x10325476 }
  leBytes 4 st.a ++ leBytes 4 st.b ++ leBytes 4 st.c ++ leBytes 4 st.d

/-- The lowercase hex alphabet. -/
def hexChars : List Char := "0123456789abcdef".data

/-- Two hex characters of one byte, high nibble first. -/
def byteToHex (b : Nat) : List Char := [hexChars.getD (b / 16) '0', hexChars.getD (b % 16) '0']

/-- Hex rendering of a byte string. -/
def bytesToHex : List Nat → List Char
  | [] => []
  | b :: bs => byteToHex b ++ bytesToHex bs

/-- `hashlib.md5(data).hexdigest()`. -/
def md5Hexdigest (msg : List Nat) : String := String.mk (bytesToHex (md5Digest msg))

/-- `text.encode()`: the UTF-8 bytes of a string, as byte values. -/
def strBytes (text : String) : List Nat := text.toUTF8.toList.map (fun b => b.toNat)

/-- `generate_audio_filename` (`src/utils/tts_utils.py`):
`f"audio_{hashlib.md5(text.encode()).hexdigest()[:12]}.wav"`. -/
def generate_audio_filename (text : String) : String :=
  "audio_" ++ (md5Hexdigest (strBytes text)).take 12 ++ ".wav"

/-- `text_to_speech` (`src/utils/tts_utils.py`) applied to the outcome of
the remote call: a remote exception is wrapped into
`TTSError.synthesisFailed` carrying `str(e)`; an empty byte string is
rejected (`if not audio_bytes`). -/
def text_to_speech (remoteResult : Except String (List Nat)) : Except TTSError (List Nat) :=
  match remoteResult with
  | .error cause => .error (.synthesisFailed cause)
  | .ok audio_bytes =>
    if audio_bytes = [] then .error .emptyAudio else .ok audio_bytes

/-- The temp-audio directory as a partial map from path to file bytes. -/
abbrev Fs : Type := String → Option (List Nat)

/-- The file system with no generated files. -/
def emptyFs : Fs := fun _ => none

/-- The path `TEMP_AUDIO_DIR / filename` that `save_audio_file` writes. -/
def tempAudioPath (filename : String) : String := "temp_audio/" ++ filename

/-- `save_audio_file` (`src/utils/tts_utils.py`): `open(filepath, "wb")`
truncates and rewrites, so a write to an existing path replaces its
content.  (The I/O-failure re-raise branch is not modelled; no claim
depends on it.) -/
def save_audio_file (fs : Fs) (audio_bytes : List Nat) (filename : String) : Fs :=
  fun p => if p = tempAudioPath filename then some audio_bytes else fs p

/-- `process_tts_request` (`src/utils/tts_utils.py`): validate the text,
synthesize, save under the hash-derived filename, return `(filepath,
len(audio_bytes))`.  The remote client is a parameter from the text to the
remote outcome; the last component records the text the remote client was
applied to (`none` when it was never called). -/
def process_tts_request (remote : String → Except String (List Nat)) (fs : Fs)
    (text : String) : Except TTSError (String × Nat) × Fs × Option String :=
  match validate_text_for_tts text with
  | .error e => (.error e, fs, none)
  | .ok _ =>
    match text_to_speech (remote text) with
    | .error e => (.error e, fs, some text)
    | .ok audio_bytes =>
      let filename := generate_audio_filename text
      let fs2 := save_audio_file fs audio_bytes filename
      (.ok (tempAudioPath filename, audio_bytes.length), fs2, some text)

/-- The error mapping of `text_to_speech_endpoint`
(`src/api_v1/endpoints/tts_endpoint.py`): every `TTSError` is caught and
re-raised as HTTP 400 with `detail=str(e)`.  The `except Exception` branch
(HTTP 500 with the generic "Text-to-speech conversion failed. Please try
again.") is unreachable for the failure modes modelled here, because
`process_tts_request` re-raises every failure — remote ones included — as
`TTSError`. -/
def text_to_speech_endpoint (remote : String → Except String (List Nat)) (fs : Fs)
    (text : String) : Except ErrorResp (String × Nat) × Fs :=
  match process_tts_request remote fs text with
  | (.ok r, fs2, _) => (.ok r, fs2)
  | (.error e, fs2, _) => (.error { status := 400, detail := e.message }, fs2)

/-- The distinct `raise ChatError(...)` sites of `src/utils/chat_utils.py`
reachable in the modelled flow, one constructor per site. -/
inductive ChatError where
  | emptyResponse
  | generationFailed (cause : String)
deriving DecidableEq, Repr

/-- The message each `raise ChatError(f"...")` site formats. -/
def ChatError.message : ChatError → String
  | .emptyResponse => "Generated response is empty"
  | .generationFailed cause => "Failed to generate response: " ++ cause

/-- The shapes the chain invocation inside `generate_chat_response` may
return: a `dict` with an optional `"response"` key, or anything else,
stringified. -/
inductive RemoteChatResponse where
  | obj (response : Option String)
  | other (stringified : String)
deriving DecidableEq, Repr

/-- The text extracted from each chat response shape
(`response.get("response", "")` for a dict, `str(response)` otherwise). -/
def normalizeChat : RemoteChatResponse → String
  | .obj r => r.getD ""
  | .other stringified => stringified

/-- `generate_chat_response` (`src/utils/chat_utils.py`) applied to the
outcome of the chain invocation: a remote exception is wrapped into
`ChatError.generationFailed` carrying `str(e)`; otherwise the extracted
text is rejected if empty or all-whitespace and returned stripped. -/
def generate_chat_response (remoteResult : Except String RemoteChatResponse) :
    Except ChatError String :=
  match remoteResult with
  | .error cause => .error (.generationFailed cause)
  | .ok response =>
    let response_text := normalizeChat response
    if response_text = "" ∨ pyStrip response_text = "" then
      .error .emptyResponse
    else
      .ok (pyStrip response_text)

/-- The error mapping of `chat_endpoint`
(`src/api_v1/endpoints/health_chat.py`): every `ChatError` is caught and
re-raised as HTTP 400 with `detail=str(e)`.  The `except Exception` branch
(HTTP 500 with the generic "Chat response generation failed. Please try
again.") is unreachable for the failure modes modelled here, because
`generate_chat_response` re-raises every failure — remote ones included —
as `ChatError`.  The memory fetch preceding the generation call touches no
claim and is not modelled. -/
def chat_endpoint (remoteResult : Except String RemoteChatResponse) :
    Except ErrorResp String :=
  match generate_chat_response remoteResult with
  | .ok r => .ok r
  | .error e => .error { status := 400, detail := e.message }

/-- One entry of the temp-audio directory listing: a file name and its
modification time (`stat().st_mtime`; times are integers here, Python's
floats change nothing the claims can see). -/
structure DirFile where
  name : String
  mtime : Int
deriving DecidableEq, Repr

/-- Whether a name matches the `glob("audio_*.wav")` scan pattern. -/
def audioPattern (name : String) : Bool :=
  "audio_".data.isPrefixOf name.data && ".wav".data.reverse.isPrefixOf name.data.reverse &&
    decide (10 ≤ name.data.length)

/-- The loop body of `cleanup_old_audio_files`: walk the directory in
listing order; a file matching the pattern whose age `now - mtime` is
strictly greater than `maxAge` is unlinked.  `unlinkOk` says which unlinks
succeed; a failing unlink raises out of the `for` loop into the
surrounding `except`, so the file and everything after it stay. -/
def reapScan (unlinkOk : String → Bool) (now maxAge : Int) : List DirFile → List DirFile
  | [] => []
  | f :: rest =>
    if audioPattern f.name then
      if now - f.mtime > maxAge then
        if unlinkOk f.name then reapScan unlinkOk now maxAge rest
        else f :: rest
      else f :: reapScan unlinkOk now maxAge rest
    else f :: reapScan unlinkOk now maxAge rest

/-- `cleanup_old_audio_files` (`src/utils/tts_utils.py`): the whole scan is
wrapped in one `try`/`except` that logs and returns, so the function
itself never raises; the resulting directory contents are what the
(possibly aborted) scan leaves. -/
def cleanup_old_audio_files (unlinkOk : String → Bool) (now : Int) (maxAge : Int)
    (dir : List DirFile) : List DirFile :=
  reapScan unlinkOk now maxAge dir

/-- The role tag of a stored chat message. -/
inductive Role where
  | user
  | assistant
deriving DecidableEq, Repr

/-- One stored chat message. -/
structure ChatMessage where
  role : Role
  content : String
deriving DecidableEq, Repr

/-- langchain's `ChatMessageHistory` as `get_conversation_memory`
(`src/utils/dependencies.py`) creates it: a plain message list with
appending `add_message` operations and no bound of any kind.  Nothing in
the repository ever trims it — `Settings.conversation_memory_size` is
never read — so it grows without limit. -/
structure ChatMessageHistory where
  messages : List ChatMessage
deriving DecidableEq, Repr

/-- The module-level `_conversation_memory` dict, user id to history. -/
abbrev ConversationStore : Type := List (String × ChatMessageHistory)

/-- Dict lookup in `_conversation_memory`. -/
def storeFind (store : ConversationStore) (user_id : String) : Option ChatMessageHistory :=
  match store.find? (fun e => e.1 = user_id) with
  | some e => some e.2
  | none => none

/-- `get_conversation_memory` (`src/utils/dependencies.py`): returns the
existing history for the user or inserts and returns a fresh empty one. -/
def get_conversation_memory (store : ConversationStore) (user_id : String) :
    ConversationStore × ChatMessageHistory :=
  match storeFind store user_id with
  | some h => (store, h)
  | none => (store ++ [(user_id, ⟨[]⟩)], ⟨[]⟩)

/-- One chat turn's effect on a history: the langchain memory hook appends
the user message then the assistant message.  No eviction follows, since
none exists anywhere in the repository. -/
def appendTurn (h : ChatMessageHistory) (userText assistantText : String) : ChatMessageHistory :=
  ⟨h.messages ++ [⟨.user, userText⟩, ⟨.assistant, assistantText⟩]⟩

/-- A sequence of chat turns applied to a history. -/
def appendTurns (h : ChatMessageHistory) : List (String × String) → ChatMessageHistory
  | [] => h
  | (u, a) :: rest => appendTurns (appendTurn h u a) rest

/-- C7: the audio validator fails exactly when the declared content type is
outside the allow-set (`invalidFormat`), the byte size exceeds the
configured ceiling (`tooLarge`) or the size is zero (`emptyFile`), the
checks applying in that order; otherwise it succeeds returning nothing
beyond the gate's stream reset.  The concrete scenario — content type
`"audio/wav"`, 10 bytes, allow-set containing `"audio/wav"`, 25MB ceiling —
passes. -/
theorem audio_validator_characterization :
    (∀ (s : Settings) (f : UploadFile),
      (validate_audio_file s f = .error (.invalidFormat f.contentType) ↔
        f.contentType ∉ s.allowed_audio_formats) ∧
      (validate_audio_file s f = .error (.tooLarge f.content.length) ↔
        (f.contentType ∈ s.allowed_audio_formats ∧
          f.content.length > s.max_audio_file_size_bytes)) ∧
      (validate_audio_file s f = .error .emptyFile ↔
        (f.contentType ∈ s.allowed_audio_formats ∧
          f.content.length ≤ s.max_audio_file_size_bytes ∧ f.content.length = 0)) ∧
      (validate_audio_file s f = .ok { f with pos := 0 } ↔
        (f.contentType ∈ s.allowed_audio_formats ∧
          f.content.length ≤ s.max_audio_file_size_bytes ∧ f.content.length ≠ 0))) ∧
    validate_audio_file { max_audio_file_size_mb := 25, allowed_audio_formats := ["audio/wav"] }
        { contentType := "audio/wav", content := List.replicate 10 0, pos := 0 } =
      .ok { contentType := "audio/wav", content := List.replicate 10 0, pos := 0 } := by
  constructor
  · intro s f
    unfold validate_audio_file
    by_cases h1 : f.contentType ∈ s.allowed_audio_formats <;>
      by_cases h2 : s.max_audio_file_size_bytes < f.content.length <;>
      by_cases h3 : f.content = [] <;>
      refine ⟨?_, ?_, ?_, ?_⟩ <;> simp_all <;> rw [if_neg (by omega)] <;> simp
  · rfl

/-- Witness for C7 at a concrete rejected input. -/
theorem audio_validator_characterization_witness :
    validate_audio_file defaultSettings
        { contentType := "text/plain", content := [0], pos := 0 } =
      .error (.invalidFormat "text/plain") :=
  ((audio_validator_characterization.1 defaultSettings
    { contentType := "text/plain", content := [0], pos := 0 }).1).mpr (by decide)

/-- C10: a file whose declared type is allowed and whose byte size equals
the configured ceiling `max_audio_file_size_mb * 1024 * 1024` exactly is
accepted — the size check rejects only strictly larger files — and the
validator leaves the stream position at the beginning.  The pydantic field
constraint `ge=1` on `max_audio_file_size_mb` is the first hypothesis. -/
theorem boundary_size_accepted : ∀ (s : Settings) (f : UploadFile),
    1 ≤ s.max_audio_file_size_mb →
    f.contentType ∈ s.allowed_audio_formats →
    f.content.length = s.max_audio_file_size_bytes →
    validate_audio_file s f = .ok { f with pos := 0 } := by
  intro s f h1 h2 h3
  have hpos : 0 < s.max_audio_file_size_bytes := by
    unfold Settings.max_audio_file_size_bytes
    positivity
  unfold validate_audio_file
  rw [if_neg (by simp [h2])]
  simp only [h3]
  rw [if_neg (by omega)]
  rw [if_neg (by omega)]


/-- Witness for C10 with a 1MB ceiling and a file of exactly 1048576
bytes at stream position 3. -/
theorem boundary_size_accepted_witness :
    1 ≤ ({ max_audio_file_size_mb := 1, allowed_audio_formats := ["audio/wav"] } :
        Settings).max_audio_file_size_mb ∧
    "audio/wav" ∈ ({ max_audio_file_size_mb := 1, allowed_audio_formats := ["audio/wav"] } :
        Settings).allowed_audio_formats ∧
    (List.replicate 1048576 (0 : Nat)).length =
      ({ max_audio_file_size_mb := 1, allowed_audio_formats := ["audio/wav"] } :
        Settings).max_audio_file_size_bytes ∧
    validate_audio_file { max_audio_file_size_mb := 1, allowed_audio_formats := ["audio/wav"] }
        { contentType := "audio/wav", content := List.replicate 1048576 0, pos := 3 } =
      .ok { contentType := "audio/wav", content := List.replicate 1048576 0, pos := 0 } :=
  ⟨by decide, by decide,
    (List.length_replicate 1048576 0).trans (by norm_num [Settings.max_audio_file_size_bytes]),
    boundary_size_accepted _ _ (by decide) (by decide)
      ((List.length_replicate 1048576 0).trans
        (by norm_num [Settings.max_audio_file_size_bytes]))⟩

/-- A Python falsy-or-strips-to-empty test collapses to the stripped string
being empty, since the empty string strips to itself. -/
theorem empty_or_strip_empty_iff (text : String) :
    (text = "" ∨ pyStrip text = "") ↔ pyStrip text = "" := by
  constructor
  · rintro (he | ht)
    · rw [he]; rfl
    · exact ht
  · exact Or.inr

/-- The model strips the same non-ASCII whitespace CPython strips: the file
separator, the no-break space and the ideographic space vanish, alone or
trailing. -/
theorem pyStrip_nonascii_whitespace :
    pyStrip "\x1c" = "" ∧ pyStrip "\u00a0" = "" ∧ pyStrip "\u3000" = "" ∧
    pyStrip " hey\u00a0" = "hey" := by decide

/-- C8: the request pipelines raise on validation failure before the remote
adapter is ever applied: whenever the audio or text validator fails, the
stub remote client records no call. -/
theorem no_remote_call_on_validation_failure :
    (∀ (s : Settings) (remote : List Nat → Except String RemoteAsrResponse)
        (f : UploadFile) (e : ASRError),
      validate_audio_file s f = .error e →
      (process_audio_upload s remote f).2 = none) ∧
    (∀ (remote : String → Except String (List Nat)) (fs : Fs) (text : String) (e : TTSError),
      validate_text_for_tts text = .error e →
      (process_tts_request remote fs text).2.2 = none) := by
  constructor
  · intro s remote f e h
    unfold process_audio_upload
    rw [h]
  · intro remote fs text e h
    unfold process_tts_request
    rw [h]

/-- Witness for C8: a disallowed content type and an empty text, each with
a live stub adapter that is never called. -/
theorem no_remote_call_on_validation_failure_witness :
    validate_audio_file defaultSettings { contentType := "text/csv", content := [1], pos := 0 } =
      .error (.invalidFormat "text/csv") ∧
    (process_audio_upload defaultSettings (fun _ => .ok (.str "hi"))
      { contentType := "text/csv", content := [1], pos := 0 }).2 = none ∧
    validate_text_for_tts "" = .error .emptyText ∧
    (process_tts_request (fun _ => .ok [1]) emptyFs "").2.2 = none :=
  ⟨by rfl,
    no_remote_call_on_validation_failure.1 defaultSettings (fun _ => .ok (.str "hi"))
      { contentType := "text/csv", content := [1], pos := 0 } (.invalidFormat "text/csv") (by rfl),
    by rfl,
    no_remote_call_on_validation_failure.2 (fun _ => .ok [1]) emptyFs "" .emptyText (by rfl)⟩

/-- The adapter on a delivered response, written out: helper equation for
iota-reducing the `Except` match. -/
theorem transcribe_audio_ok (resp : RemoteAsrResponse) :
    transcribe_audio (.ok resp) =
      (if normalizeAsr resp = "" ∨ pyStrip (normalizeAsr resp) = "" then
        .error .emptyTranscription
      else
        .ok { text := pyStrip (normalizeAsr resp), language := "en" }) := rfl

/-- C9: the transcription adapter accepts both remote response shapes (a
structured object with a `text` field and a bare string, both normalizing
to that text); it fails with the wrapped cause when the remote call errors
and with the empty-text error when the normalized text strips to nothing;
otherwise it returns the stripped, non-empty text with the fixed default
language code `"en"`. -/
theorem transcription_adapter_normalization :
    (∀ cause : String,
      transcribe_audio (.error cause) = .error (.transcriptionFailed cause)) ∧
    (∀ resp : RemoteAsrResponse,
      (pyStrip (normalizeAsr resp) = "" →
        transcribe_audio (.ok resp) = .error .emptyTranscription) ∧
      (pyStrip (normalizeAsr resp) ≠ "" →
        transcribe_audio (.ok resp) =
          .ok { text := pyStrip (normalizeAsr resp), language := "en" } ∧
        pyStrip (normalizeAsr resp) ≠ "")) ∧
    (∀ t : String, normalizeAsr (.obj (some t)) = t ∧ normalizeAsr (.str t) = t) := by
  refine ⟨fun cause => rfl, fun resp => ⟨?_, ?_⟩, fun t => ⟨rfl, rfl⟩⟩
  · intro h
    rw [transcribe_audio_ok, if_pos (Or.inr h)]
  · intro h
    rw [transcribe_audio_ok, if_neg (fun hc => h ((empty_or_strip_empty_iff _).mp hc))]
    exact ⟨rfl, h⟩

/-- Witness for C9 on both shapes and both failure modes, including the
non-ASCII whitespace CPython strips: a no-break-space-only result is
rejected as empty and a trailing no-break space is stripped. -/
theorem transcription_adapter_normalization_witness :
    transcribe_audio (.error "down") = .error (.transcriptionFailed "down") ∧
    transcribe_audio (.ok (.obj (some " hey "))) =
      .ok { text := "hey", language := "en" } ∧
    transcribe_audio (.ok (.str "  ")) = .error .emptyTranscription ∧
    transcribe_audio (.ok (.str "\u00a0")) = .error .emptyTranscription ∧
    transcribe_audio (.ok (.str " hey\u00a0")) =
      .ok { text := "hey", language := "en" } :=
  ⟨transcription_adapter_normalization.1 "down",
    by
      have h := ((transcription_adapter_normalization.2.1 (.obj (some " hey "))).2 (by decide)).1
      simpa using h,
    (transcription_adapter_normalization.2.1 (.str "  ")).1 (by decide),
    (transcription_adapter_normalization.2.1 (.str "\u00a0")).1 (by decide),
    by
      have h := ((transcription_adapter_normalization.2.1 (.str " hey\u00a0")).2 (by decide)).1
      simpa using h⟩

/-- C2 counterexample: a request whose remote transcription call fails with
cause `"boom"` is answered with HTTP 400 — not a 5xx — and the response
detail contains the provider-specific cause verbatim. -/
theorem upstream_error_exposed_counterexample :
    transcribe_audio_endpoint defaultSettings (fun _ => .error "boom")
        { contentType := "audio/wav", content := [0], pos := 0 } =
      .error { status := 400, detail := "Transcription failed: boom" } ∧
    ¬(500 ≤ (400 : Nat)) := ⟨by rfl, by decide⟩

/-- C2 amended: in all three flows — transcription, synthesis and chat — a
failed remote adapter call is re-raised as the domain error type
(`ASRError` / `TTSError` / `ChatError`), which the handlers map to HTTP 400
with `str(e)` — the underlying cause included — as the response detail; the
generic-message 500 branch is reserved for exceptions outside the domain
error type, which the pipelines never produce for remote failures. -/
theorem upstream_error_mapping :
    (∀ (s : Settings) (f validated : UploadFile) (cause : String),
      validate_audio_file s f = .ok validated →
      transcribe_audio_endpoint s (fun _ => .error cause) f =
        .error { status := 400, detail := "Transcription failed: " ++ cause }) ∧
    (∀ (fs : Fs) (text cause : String),
      validate_text_for_tts text = .ok () →
      (text_to_speech_endpoint (fun _ => .error cause) fs text).1 =
        .error { status := 400, detail := "Text-to-speech conversion failed: " ++ cause }) ∧
    (∀ cause : String,
      chat_endpoint (.error cause) =
        .error { status := 400, detail := "Failed to generate response: " ++ cause }) := by
  refine ⟨?_, ?_, fun cause => rfl⟩
  · intro s f validated cause h
    unfold transcribe_audio_endpoint process_audio_upload
    rw [h]
    rfl
  · intro fs text cause h
    unfold text_to_speech_endpoint process_tts_request
    rw [h]
    rfl

/-- Witness for C2's amended mapping at concrete passing inputs. -/
theorem upstream_error_mapping_witness :
    validate_audio_file defaultSettings { contentType := "audio/mpeg", content := [9], pos := 0 } =
      .ok { contentType := "audio/mpeg", content := [9], pos := 0 } ∧
    transcribe_audio_endpoint defaultSettings (fun _ => .error "remote down")
        { contentType := "audio/mpeg", content := [9], pos := 0 } =
      .error { status := 400, detail := "Transcription failed: remote down" } ∧
    validate_text_for_tts "ok" = .ok () ∧
    (text_to_speech_endpoint (fun _ => .error "remote down") emptyFs "ok").1 =
      .error { status := 400, detail := "Text-to-speech conversion failed: remote down" } ∧
    chat_endpoint (.error "remote down") =
      .error { status := 400, detail := "Failed to generate response: remote down" } :=
  ⟨by rfl,
    upstream_error_mapping.1 defaultSettings
      { contentType := "audio/mpeg", content := [9], pos := 0 }
      { contentType := "audio/mpeg", content := [9], pos := 0 } "remote down" (by rfl),
    by rfl,
    upstream_error_mapping.2.1 emptyFs "ok" "remote down" (by rfl),
    upstream_error_mapping.2.2 "remote down"⟩

/-- C3 counterexample: the input `" hi"` passes validation, yet the text
forwarded to the synthesis adapter is the original untrimmed string — the
validator returns no value at all (Python `None`), so the stripped string
the claim promises is never produced or forwarded. -/
theorem text_validator_trim_counterexample :
    validate_text_for_tts " hi" = .ok () ∧
    (process_tts_request (fun _ => .ok [7]) emptyFs " hi").2.2 = some " hi" ∧
    pyStrip " hi" = "hi" ∧ (" hi" : String) ≠ "hi" :=
  ⟨by rfl, by rfl, by decide, by decide⟩

/-- C3 amended: the text validator fails with the empty-text error when the
string is empty or all-whitespace, fails with the too-long error when its
length exceeds the fixed 2000-character ceiling (a literal in the source,
not a configuration entry), and on success returns nothing; the original,
unstripped string is what the synthesis flow forwards to the remote
adapter. -/
theorem text_validator_characterization :
    ∀ (text : String) (remote : String → Except String (List Nat)) (fs : Fs),
      (validate_text_for_tts text = .error .emptyText ↔ pyStrip text = "") ∧
      (validate_text_for_tts text = .error (.tooLong text.length) ↔
        (pyStrip text ≠ "" ∧ text.length > 2000)) ∧
      (validate_text_for_tts text = .ok () ↔ (pyStrip text ≠ "" ∧ text.length ≤ 2000)) ∧
      (validate_text_for_tts text = .ok () →
        (process_tts_request remote fs text).2.2 = some text) := by
  intro text remote fs
  have hval : validate_text_for_tts text =
      (if pyStrip text = "" then .error .emptyText
       else if text.length > 2000 then .error (.tooLong text.length) else .ok ()) := by
    unfold validate_text_for_tts
    by_cases h0 : pyStrip text = ""
    · rw [if_pos (Or.inr h0), if_pos h0]
    · rw [if_neg (fun hc => h0 ((empty_or_strip_empty_iff text).mp hc)), if_neg h0]
  refine ⟨?_, ?_, ?_, ?_⟩
  · rw [hval]
    by_cases h0 : pyStrip text = "" <;> by_cases h1 : text.length > 2000 <;>
      simp [h0, h1]
  · rw [hval]
    by_cases h0 : pyStrip text = "" <;> by_cases h1 : text.length > 2000 <;>
      simp [h0, h1]
  · rw [hval]
    by_cases h0 : pyStrip text = "" <;> by_cases h1 : text.length > 2000 <;>
      simp [h0, h1] <;> omega
  · intro hok
    unfold process_tts_request
    rw [hok]
    rcases ht : text_to_speech (remote text) with e | bytes
    · rfl
    · rfl

/-- Witness for C3's amended characterization at the input `" ok"`. -/
theorem text_validator_characterization_witness :
    validate_text_for_tts " ok" = .ok () ∧
    (process_tts_request (fun _ => .ok [3]) emptyFs " ok").2.2 = some " ok" :=
  ⟨((text_validator_characterization " ok" (fun _ => .ok [3]) emptyFs).2.2.1).mpr (by decide),
    (text_validator_characterization " ok" (fun _ => .ok [3]) emptyFs).2.2.2
      (((text_validator_characterization " ok" (fun _ => .ok [3]) emptyFs).2.2.1).mpr
        (by decide))⟩

/-- A file the scan is due to delete: it matches the glob pattern and its
age is strictly greater than the threshold. -/
def dueB (now maxAge : Int) (f : DirFile) : Bool :=
  audioPattern f.name && decide (now - f.mtime > maxAge)

/-- A file the scan walks past without aborting: either it is not due for
deletion, or its unlink succeeds. -/
def scanOk (unlinkOk : String → Bool) (now maxAge : Int) (f : DirFile) : Bool :=
  !dueB now maxAge f || unlinkOk f.name

/-- The scan loop deletes due files until the first failing unlink and
leaves everything from that file on untouched. -/
theorem reapScan_eq (unlinkOk : String → Bool) (now maxAge : Int) (dir : List DirFile) :
    reapScan unlinkOk now maxAge dir =
      (dir.takeWhile (scanOk unlinkOk now maxAge)).filter (fun f => !dueB now maxAge f) ++
        dir.dropWhile (scanOk unlinkOk now maxAge) := by
  induction dir with
  | nil => rfl
  | cons f rest ih =>
    unfold reapScan
    by_cases h1 : audioPattern f.name
    · by_cases h2 : now - f.mtime > maxAge
      · by_cases h3 : unlinkOk f.name
        · simp [h1, h2, h3, scanOk, dueB, List.takeWhile_cons, List.dropWhile_cons, ih]
        · simp [h1, h2, h3, scanOk, dueB, List.takeWhile_cons, List.dropWhile_cons]
      · simp [h1, h2, scanOk, dueB, List.takeWhile_cons, List.dropWhile_cons, ih]
    · simp [h1, scanOk, dueB, List.takeWhile_cons, List.dropWhile_cons, ih]

/-- C4 counterexample: with two stale generated files and an unlink that
fails on the first, the scan aborts and the second stale file — matching
the pattern and older than the threshold — survives, though the function
returns normally. -/
theorem reap_abort_counterexample :
    cleanup_old_audio_files (fun n => n != "audio_aaaaaaaaaaaa.wav") 100 10
        [{ name := "audio_aaaaaaaaaaaa.wav", mtime := 0 },
         { name := "audio_bbbbbbbbbbbb.wav", mtime := 0 }] =
      [{ name := "audio_aaaaaaaaaaaa.wav", mtime := 0 },
       { name := "audio_bbbbbbbbbbbb.wav", mtime := 0 }] ∧
    audioPattern "audio_bbbbbbbbbbbb.wav" = true ∧
    ((100 : Int) - 0 > 10) := by decide

/-- C4 amended: one `try`/`except` wraps the whole scan, so a failure while
deleting one file aborts the remainder — due files scanned before the
failure are deleted, the failing file and everything after it survive —
and the function itself never raises, returning the resulting directory
normally for every input. -/
theorem reap_failure_aborts_scan :
    ∀ (unlinkOk : String → Bool) (now maxAge : Int) (dir : List DirFile),
      cleanup_old_audio_files unlinkOk now maxAge dir =
        (dir.takeWhile (scanOk unlinkOk now maxAge)).filter (fun f => !dueB now maxAge f) ++
          dir.dropWhile (scanOk unlinkOk now maxAge) := by
  intro unlinkOk now maxAge dir
  unfold cleanup_old_audio_files
  exact reapScan_eq unlinkOk now maxAge dir

/-- C6 counterexample: a directory with one matching generated file whose
modification time equals the scan time; `reap(0)` deletes nothing because
the age comparison is strict, so one matching file remains. -/
theorem reap_zero_counterexample :
    cleanup_old_audio_files (fun _ => true) 50 0 [{ name := "audio_cccccccccccc.wav", mtime := 50 }] =
      [{ name := "audio_cccccccccccc.wav", mtime := 50 }] ∧
    (List.filter (fun f => audioPattern f.name)
        [({ name := "audio_cccccccccccc.wav", mtime := 50 } : DirFile)]).length = 1 := by
  decide

/-- C6 amended: when every deletion succeeds, `reap(0)` deletes exactly the
matching files whose modification time is strictly earlier than the scan
time; a matching file stamped at or after the scan instant survives. -/
theorem reap_zero_deletes_strictly_older :
    ∀ (now : Int) (dir : List DirFile),
      cleanup_old_audio_files (fun _ => true) now 0 dir =
        dir.filter (fun f => !(audioPattern f.name && decide (now - f.mtime > 0))) := by
  intro now dir
  unfold cleanup_old_audio_files
  rw [reapScan_eq]
  have hall : ∀ f ∈ dir, scanOk (fun _ => true) now 0 f = true := by
    intro f _
    simp [scanOk]
  rw [List.takeWhile_eq_self_iff.mpr hall, List.dropWhile_eq_nil_iff.mpr hall,
    List.append_nil]
  simp [dueB]

/-- Little-endian byte rendering always yields the requested count. -/
theorem length_leBytes (k : Nat) : ∀ n : Nat, (leBytes k n).length = k := by
  induction k with
  | zero => intro n; rfl
  | succ k ih => intro n; simp [leBytes, ih]

/-- An MD5 digest is sixteen bytes. -/
theorem length_md5Digest (msg : List Nat) : (md5Digest msg).length = 16 := by
  unfold md5Digest
  simp [length_leBytes]

/-- Hex rendering doubles the byte count. -/
theorem length_bytesToHex : ∀ bs : List Nat, (bytesToHex bs).length = 2 * bs.length := by
  intro bs
  induction bs with
  | nil => rfl
  | cons b rest ih => simp [bytesToHex, byteToHex, ih]; omega

/-- Indexing the hex alphabet yields a hex character whatever the index. -/
theorem getD_mem_hexChars (i : Nat) : hexChars.getD i '0' ∈ hexChars := by
  by_cases hi : i < 16
  · interval_cases i <;> decide
  · rw [List.getD_eq_default]
    · decide
    · have h16 : hexChars.length = 16 := by decide
      rw [h16]
      omega

/-- Every character of a hex rendering is a hex character. -/
theorem mem_bytesToHex {c : Char} : ∀ {bs : List Nat}, c ∈ bytesToHex bs → c ∈ hexChars := by
  intro bs
  induction bs with
  | nil => intro h; cases h
  | cons b rest ih =>
    intro h
    rcases List.mem_append.mp h with hb | hr
    · rcases hb with _ | ⟨_, hb⟩
      · exact getD_mem_hexChars _
      · rcases hb with _ | ⟨_, hb⟩
        · exact getD_mem_hexChars _
        · cases hb
    · exact ih hr

/-- The synthesis pipeline on the happy path: validated text, a remote
call returning non-empty bytes, one write under the hash-derived name. -/
theorem process_tts_request_ok (remote : String → Except String (List Nat)) (fs : Fs)
    (text : String) (bytes : List Nat) (hok : validate_text_for_tts text = .ok ())
    (hr : remote text = .ok bytes) (hb : bytes ≠ []) :
    process_tts_request remote fs text =
      (.ok (tempAudioPath (generate_audio_filename text), bytes.length),
        save_audio_file fs bytes (generate_audio_filename text), some text) := by
  unfold process_tts_request text_to_speech
  rw [hok, hr]
  simp [hb]

/-- C5: the saved filename is derived deterministically from the MD5 hash
of the input text truncated to twelve hex characters, in the shape
`audio_<12-hex>.wav`; saving twice for identical text therefore writes the
same single path, whose final content is the second call's bytes, with
every other path untouched. -/
theorem save_dedup_overwrite :
    (∀ text : String, ∃ h : String,
      generate_audio_filename text = "audio_" ++ h ++ ".wav" ∧
      h.length = 12 ∧ ∀ c ∈ h.data, c ∈ hexChars) ∧
    (∀ (fs : Fs) (text : String) (b1 b2 : List Nat),
      b1 ≠ [] → b2 ≠ [] → validate_text_for_tts text = .ok () →
      ((process_tts_request (fun _ => .ok b2)
          (process_tts_request (fun _ => .ok b1) fs text).2.1 text).2.1)
            (tempAudioPath (generate_audio_filename text)) = some b2 ∧
      (∀ p, p ≠ tempAudioPath (generate_audio_filename text) →
        ((process_tts_request (fun _ => .ok b2)
            (process_tts_request (fun _ => .ok b1) fs text).2.1 text).2.1) p = fs p)) := by
  constructor
  · intro text
    refine ⟨(md5Hexdigest (strBytes text)).take 12, rfl, ?_, ?_⟩
    · rw [String.take_eq]
      simp only [md5Hexdigest, String.length_mk, List.length_take, length_bytesToHex,
        length_md5Digest]
      omega
    · intro c hc
      rw [String.take_eq] at hc
      simp only [md5Hexdigest] at hc
      exact mem_bytesToHex (List.mem_of_mem_take hc)
  · intro fs text b1 b2 hb1 hb2 hok
    rw [process_tts_request_ok (fun _ => .ok b1) fs text b1 hok rfl hb1,
      process_tts_request_ok (fun _ => .ok b2) _ text b2 hok rfl hb2]
    constructor
    · simp [save_audio_file]
    · intro p hp
      simp [save_audio_file, hp]

/-- Witness for C5: saving twice for the text `"hi"` leaves the second
call's bytes at the derived path. -/
theorem save_dedup_overwrite_witness :
    validate_text_for_tts "hi" = .ok () ∧
    ((process_tts_request (fun _ => .ok [2])
        (process_tts_request (fun _ => .ok [1]) emptyFs "hi").2.1 "hi").2.1)
          (tempAudioPath (generate_audio_filename "hi")) = some [2] :=
  ⟨by rfl, (save_dedup_overwrite.2 emptyFs "hi" [1] [2] (by decide) (by decide) (by rfl)).1⟩

/-- C1: the conversation history is unbounded — no code in the repository
ever evicts entries and `Settings.conversation_memory_size` is never read —
so a history created by `get_conversation_memory` holds `2 * N` entries
after `N` chat-turn appends; six appended pairs leave twelve entries,
exceeding the claimed bound whether it is read as five entries or as five
exchanges (ten entries). -/
theorem conversation_history_unbounded :
    (∀ (h : ChatMessageHistory) (pairs : List (String × String)),
      (appendTurns h pairs).messages.length = h.messages.length + 2 * pairs.length) ∧
    (appendTurns (get_conversation_memory [] "default").2
        [("u1", "a1"), ("u2", "a2"), ("u3", "a3"),
         ("u4", "a4"), ("u5", "a5"), ("u6", "a6")]).messages.length = 12 ∧
    ¬(12 ≤ 2 * defaultSettings.conversation_memory_size) ∧
    ¬(12 ≤ defaultSettings.conversation_memory_size) := by
  refine ⟨?_, by decide, by decide, by decide⟩
  intro h pairs
  induction pairs generalizing h with
  | nil => simp [appendTurns]
  | cons p rest ih =>
    cases p
    simp [appendTurns, appendTurn, ih]
    omega
